import Mathlib

/-!
Shallow embedding of the ListKit GTM intelligence health-scoring pipeline:
the health-score calculator directive, the Calendly show-rate aggregation,
the Slack alert cooldown logic, and the multi-source unification engine.
-/

namespace ListKit

/-- One row of `unified_customers`, restricted to the fields the health-score
calculator directive reads.  Nullable columns become `Option`; counter columns
have `DEFAULT 0` in the schema and are plain `Nat`; boolean flags have
`DEFAULT FALSE` and are plain `Bool`.  Timestamps are UTC epoch seconds. -/
structure UnifiedCustomer where
  days_since_seen : Option Nat
  csat_score : Option ℚ
  support_sentiment : Option String
  intercom_convos_30d : Nat
  subscription_status : Option String
  is_delinquent : Bool
  payment_failures_90d : Nat
  login_count_30d : Nat
  onboarding_complete : Bool
  feature_adoption_count : Nat
  signup_date : Option Int
  mrr : Option ℚ
  mentioned_cancel : Bool
  open_tickets : Nat
  show_rate : Option ℚ
  total_calls_booked : Nat
  next_call_date : Option Int
  deriving Repr, DecidableEq

/-- `days_as_customer = (NOW - signup_date) / 86400`, absent when the customer
has no signup date (the directive short-circuits on `if not signup_date`). -/
def daysAsCustomer (signup_date : Option Int) (now : Int) : Option ℚ :=
  signup_date.map (fun s => ((now - s : Int) : ℚ) / 86400)

/-- `calculate_activity_score`: step function of days since last seen,
neutral 50 when the field is null. -/
def calculate_activity_score (days_since_seen : Option Nat) : ℚ :=
  match days_since_seen with
  | none => 50
  | some d =>
    if d ≤ 1 then 100
    else if d ≤ 3 then 90
    else if d ≤ 7 then 80
    else if d ≤ 14 then 65
    else if d ≤ 30 then 40
    else if d ≤ 60 then 20
    else 0

/-- `calculate_support_score`: CSAT base (Python truthiness: a null or zero
CSAT falls back to the neutral 70), sentiment adjustment, volume penalty,
clamped to [0,100]. -/
def calculate_support_score (csat_score : Option ℚ) (support_sentiment : Option String)
    (convos_30d : Nat) : ℚ :=
  let base : ℚ :=
    match csat_score with
    | some c => if c ≠ 0 then (c / 5) * 100 else 70
    | none => 70
  let adj : ℚ :=
    match support_sentiment with
    | some s => if s = "positive" then 10 else if s = "negative" then -20 else 0
    | none => 0
  let base := base + adj
  let base := if convos_30d > 10 then base - min ((convos_30d : ℚ) - 10) 20 else base
  max 0 (min 100 base)

/-- `calculate_payment_score`: base by subscription status, capped at 30 when
delinquent, minus 10 per payment failure in 90 days (capped at 30), floored
at 0.  (Python truthiness on `payment_failures_90d`: zero means no penalty,
which coincides with subtracting 0.) -/
def calculate_payment_score (subscription_status : Option String) (is_delinquent : Bool)
    (payment_failures_90d : Nat) : ℚ :=
  let base : ℚ :=
    match subscription_status with
    | some s =>
      if s = "active" ∧ ¬is_delinquent then 100
      else if s = "trialing" then 80
      else if s = "past_due" then 40
      else if s = "canceled" then 0
      else if s = "unpaid" then 20
      else 70
    | none => 70
  let base := if is_delinquent then min base 30 else base
  let base := base - min ((payment_failures_90d : ℚ) * 10) 30
  max 0 base

/-- `calculate_engagement_score`: login frequency (up to 50), onboarding bonus
(30), feature adoption (up to 20). -/
def calculate_engagement_score (login_count_30d : Nat) (onboarding_complete : Bool)
    (feature_adoption_count : Nat) : ℚ :=
  let login_score : ℚ := min (((login_count_30d : ℚ) / 20) * 50) 50
  let onboarding_score : ℚ := if onboarding_complete then 30 else 0
  let feature_score : ℚ := min ((feature_adoption_count : ℚ) * 4) 20
  login_score + onboarding_score + feature_score

/-- `calculate_tenure_score`: step function of days as customer, neutral 50
when signup date is null. -/
def calculate_tenure_score (signup_date : Option Int) (now : Int) : ℚ :=
  match daysAsCustomer signup_date now with
  | none => 50
  | some d =>
    if d < 30 then 40
    else if d < 90 then 60
    else if d < 180 then 75
    else if d < 365 then 85
    else 100

/-- `calculate_mrr_weight`: step function of MRR magnitude, neutral 50 when
MRR is null or non-positive. -/
def calculate_mrr_weight (mrr : Option ℚ) : ℚ :=
  match mrr with
  | none => 50
  | some m =>
    if m ≤ 0 then 50
    else if m < 50 then 60
    else if m < 100 then 70
    else if m < 250 then 80
    else if m < 500 then 90
    else 100

/-- Risk signal penalties: the directive accumulates `risk_penalties` as a sum
of condition-gated amounts, applied after the weighted score.  The show-rate
and MRR comparisons require the nullable field to be present. -/
def risk_penalties (c : UnifiedCustomer) : ℚ :=
  (if c.mentioned_cancel then 30 else 0)
  + (if c.is_delinquent then 25 else 0)
  + (match c.days_since_seen with
     | some d => if d > 30 then 20 else 0
     | none => 0)
  + (if c.open_tickets > 0 then min ((c.open_tickets : ℚ) * 5) 15 else 0)
  + (match c.show_rate with
     | some r => if r < 50 ∧ c.total_calls_booked ≥ 3 then 10 else 0
     | none => 0)
  + (match c.mrr with
     | some m => if m > 200 ∧ c.next_call_date = none then 10 else 0
     | none => 0)

/-- The six sub-scores of the health formula (`score_components` in the
directive's output object). -/
structure ScoreComponents where
  activity_score : ℚ
  support_score : ℚ
  payment_score : ℚ
  engagement_score : ℚ
  tenure_score : ℚ
  mrr_weight : ℚ
  deriving Repr, DecidableEq

/-- All six factor scores of one customer. -/
def score_components (c : UnifiedCustomer) (now : Int) : ScoreComponents :=
  { activity_score := calculate_activity_score c.days_since_seen
    support_score :=
      calculate_support_score c.csat_score c.support_sentiment c.intercom_convos_30d
    payment_score :=
      calculate_payment_score c.subscription_status c.is_delinquent c.payment_failures_90d
    engagement_score :=
      calculate_engagement_score c.login_count_30d c.onboarding_complete
        c.feature_adoption_count
    tenure_score := calculate_tenure_score c.signup_date now
    mrr_weight := calculate_mrr_weight c.mrr }

/-- The weighted composite before penalties: weights 25/20/20/15/10/10 percent. -/
def weighted_score (c : UnifiedCustomer) (now : Int) : ℚ :=
  let s := score_components c now
  s.activity_score * (25 / 100) + s.support_score * (20 / 100)
    + s.payment_score * (20 / 100) + s.engagement_score * (15 / 100)
    + s.tenure_score * (10 / 100) + s.mrr_weight * (10 / 100)

/-- `health_score`: weighted composite minus risk penalties, final score
clamped to 0-100. -/
def health_score (c : UnifiedCustomer) (now : Int) : ℚ :=
  max 0 (min 100 (weighted_score c now - risk_penalties c))

/-- `classify_health_status`: threshold classification of the final score. -/
def classify_health_status (score : ℚ) : String :=
  if score ≥ 70 then "healthy"
  else if score ≥ 50 then "at_risk"
  else if score ≥ 30 then "high_risk"
  else "critical"

/-- `health_status` of one customer. -/
def health_status (c : UnifiedCustomer) (now : Int) : String :=
  classify_health_status (health_score c now)

/-- One entry of the `risk_signals` JSONB array. -/
structure RiskSignal where
  type : String
  severity : String
  message : String
  deriving Repr, DecidableEq

/-- `identify_risk_signals`: ordered list of triggered structured signals.
Python truthiness: the CSAT and show-rate guards (`if customer_data.csat_score
and ...`, `if customer_data.show_rate and ...`) require the value to be present
and nonzero. -/
def identify_risk_signals (c : UnifiedCustomer) (now : Int) : List RiskSignal :=
  (if c.mentioned_cancel then
    [⟨"cancel_mention", "critical", "Customer mentioned canceling in support"⟩]
  else [])
  ++ (if c.is_delinquent then
    [⟨"payment_delinquent", "critical", "Payment is delinquent"⟩]
  else [])
  ++ (match c.days_since_seen with
    | some d =>
      if d > 30 then
        [⟨"inactive", "high", "No activity in " ++ toString d ++ " days"⟩]
      else []
    | none => [])
  ++ (match c.csat_score with
    | some s =>
      if s ≠ 0 ∧ s ≤ 2 then
        [⟨"low_satisfaction", "high", "CSAT score: " ++ toString s ++ "/5"⟩]
      else []
    | none => [])
  ++ (match c.show_rate with
    | some r =>
      if r ≠ 0 ∧ r < 50 then
        [⟨"low_show_rate", "medium", "Show rate: " ++ toString r ++ "%"⟩]
      else []
    | none => [])
  ++ (if c.open_tickets > 3 then
    [⟨"support_volume", "medium", toString c.open_tickets ++ " open tickets"⟩]
  else [])
  ++ (match daysAsCustomer c.signup_date now with
    | some d =>
      if ¬c.onboarding_complete ∧ d > 60 then
        [⟨"onboarding_incomplete", "medium", "Onboarding not completed"⟩]
      else []
    | none => [])

/-- `recommend_action`: priority-ordered decision table on health status and
risk signals. -/
def recommend_action (status : String) (signals : List RiskSignal)
    (c : UnifiedCustomer) : String :=
  if status = "critical" then
    if signals.any (fun s => s.type == "cancel_mention") then
      "Urgent: Contact immediately - cancel risk"
    else if signals.any (fun s => s.type == "payment_delinquent") then
      "Urgent: Resolve payment issue"
    else
      "Urgent: Schedule retention call"
  else if status = "high_risk" then
    if (match c.days_since_seen with | some d => decide (d > 30) | none => false : Bool) then
      "Re-engagement campaign needed"
    else if c.next_call_date = none then
      "Schedule check-in call"
    else
      "Monitor closely and provide proactive support"
  else if status = "at_risk" then
    "Proactive outreach to improve engagement"
  else
    if (match c.mrr with | some m => decide (m > 500) | none => false : Bool) then
      "Explore expansion opportunities"
    else
      "Maintain current engagement"

/-- The boolean `risk_signals` dict consumed by `calculate_churn_risk`
(keys `mentioned_cancel`, `is_delinquent`, `inactive_30d`, `low_engagement`,
`no_calls_scheduled`). -/
structure ChurnSignals where
  mentioned_cancel : Bool
  is_delinquent : Bool
  inactive_30d : Bool
  low_engagement : Bool
  no_calls_scheduled : Bool
  deriving Repr, DecidableEq

/-- Product of the per-signal churn multipliers (1.5, 1.4, 1.3, 1.2, 1.1). -/
def churn_multiplier (sig : ChurnSignals) : ℚ :=
  (if sig.mentioned_cancel then 15 / 10 else 1)
  * (if sig.is_delinquent then 14 / 10 else 1)
  * (if sig.inactive_30d then 13 / 10 else 1)
  * (if sig.low_engagement then 12 / 10 else 1)
  * (if sig.no_calls_scheduled then 11 / 10 else 1)

/-- `round(x, 1)`: round to one decimal place. -/
def roundTo1 (x : ℚ) : ℚ :=
  ((round (x * 10) : ℤ) : ℚ) / 10

/-- `calculate_churn_risk`: inverse of health amplified by the stacked signal
multipliers, capped at 100, rounded to one decimal. -/
def calculate_churn_risk (score : ℚ) (sig : ChurnSignals) : ℚ :=
  roundTo1 (min ((100 - score) * churn_multiplier sig) 100)

/-- The directive's churn multiplier keys name customer conditions but give no
code constructing the dict passed to `calculate_churn_risk`; these flags mirror
the conditions the keys name (none of them reads the clock). -/
def churn_signal_flags (c : UnifiedCustomer) : ChurnSignals :=
  { mentioned_cancel := c.mentioned_cancel
    is_delinquent := c.is_delinquent
    inactive_30d := match c.days_since_seen with | some d => decide (d > 30) | none => false
    low_engagement :=
      decide (calculate_engagement_score c.login_count_30d c.onboarding_complete
        c.feature_adoption_count < 30)
    no_calls_scheduled := c.next_call_date.isNone }

/-- The full derived group of the health summary object. -/
structure HealthOutput where
  score_components : ScoreComponents
  health_score : ℚ
  health_status : String
  churn_risk : ℚ
  risk_signals : List RiskSignal
  recommended_action : String
  deriving Repr, DecidableEq

/-- The whole Health Scoring Engine: one `UnifiedCustomer` and the clock in,
the derived group out. -/
def compute_health (c : UnifiedCustomer) (now : Int) : HealthOutput :=
  let comps := score_components c now
  let score := health_score c now
  let status := classify_health_status score
  let signals := identify_risk_signals c now
  { score_components := comps
    health_score := score
    health_status := status
    churn_risk := calculate_churn_risk score (churn_signal_flags c)
    risk_signals := signals
    recommended_action := recommend_action status signals c }

/-- A brand-new signup no adapter has populated: every nullable source field is
null, every defaulted counter 0, every defaulted flag false. -/
def nullCustomer : UnifiedCustomer :=
  { days_since_seen := none
    csat_score := none
    support_sentiment := none
    intercom_convos_30d := 0
    subscription_status := none
    is_delinquent := false
    payment_failures_90d := 0
    login_count_30d := 0
    onboarding_complete := false
    feature_adoption_count := 0
    signup_date := none
    mrr := none
    mentioned_cancel := false
    open_tickets := 0
    show_rate := none
    total_calls_booked := 0
    next_call_date := none }

/-- The cancel-mention scenario customer: `mrr = 500`, `is_delinquent = false`,
`days_since_seen = 2`, `mentioned_cancel` as given, every other field absent. -/
def cancelScenario (mentioned_cancel : Bool) : UnifiedCustomer :=
  { nullCustomer with
    mentioned_cancel := mentioned_cancel
    mrr := some 500
    days_since_seen := some 2 }

/-- The churned-inactive scenario customer: `subscription_status = "canceled"`,
no activity for `d` days, every other field absent. -/
def canceledScenario (d : Nat) : UnifiedCustomer :=
  { nullCustomer with
    subscription_status := some "canceled"
    days_since_seen := some d }

/-- A customer whose defined show rate is exactly 0: three calls booked, none
attended. -/
def zeroShowRateCustomer : UnifiedCustomer :=
  { nullCustomer with
    show_rate := some 0
    total_calls_booked := 3 }

/-- A customer carrying every negative signal at once: long inactivity, worst
CSAT with negative sentiment and heavy volume, canceled and delinquent with
payment failures, no engagement, high MRR with no upcoming call, cancel
mention, open tickets, zero show rate. -/
def worstCustomer : UnifiedCustomer :=
  { days_since_seen := some 90
    csat_score := some 1
    support_sentiment := some "negative"
    intercom_convos_30d := 40
    subscription_status := some "canceled"
    is_delinquent := true
    payment_failures_90d := 5
    login_count_30d := 0
    onboarding_complete := false
    feature_adoption_count := 0
    signup_date := none
    mrr := some 300
    mentioned_cancel := true
    open_tickets := 5
    show_rate := some 10
    total_calls_booked := 5
    next_call_date := none }

/-- All five churn multipliers present at once. -/
def allChurnSignals : ChurnSignals :=
  { mentioned_cancel := true
    is_delinquent := true
    inactive_30d := true
    low_engagement := true
    no_calls_scheduled := true }

/-- A customer whose only populated source field is a signup date: a probe for
the scoring engine's dependence on the clock through `days_as_customer`. -/
def tenureProbe : UnifiedCustomer :=
  { nullCustomer with signup_date := some 0 }

/-- Calendly aggregation: `show_rate = (calls_completed / total_calls_booked)
* 100`, and `NULL` when `total_calls_booked = 0`. -/
def showRate (calls_completed total_calls_booked : Nat) : Option ℚ :=
  if total_calls_booked = 0 then none
  else some (((calls_completed : ℚ) / (total_calls_booked : ℚ)) * 100)

/-- The alert types carrying a per-customer cooldown. -/
inductive AlertType
  | cancel_mention
  | payment_delinquent
  | health_drop
  | engagement_drop
  deriving Repr, DecidableEq

/-- `ALERT_COOLDOWNS`: per-type cooldown in seconds. -/
def ALERT_COOLDOWNS : AlertType → Int
  | .cancel_mention => 7 * 24 * 3600
  | .payment_delinquent => 3 * 24 * 3600
  | .health_drop => 2 * 24 * 3600
  | .engagement_drop => 14 * 24 * 3600

/-- One row of `alert_history`, restricted to the fields the throttling logic
reads. -/
structure AlertRecord where
  customer_id : String
  alert_type : AlertType
  sent_at : Int
  deriving Repr, DecidableEq

/-- Whether a stored alert is for this customer and alert type. -/
def matchesAlert (cust : String) (ty : AlertType) (r : AlertRecord) : Bool :=
  r.customer_id == cust && r.alert_type == ty

/-- `last_alert_sent`: the most recent `sent_at` among this customer's stored
alerts of this type, absent when there is none. -/
def lastAlertSent (hist : List AlertRecord) (cust : String) (ty : AlertType) :
    Option Int :=
  ((hist.filter (matchesAlert cust ty)).map AlertRecord.sent_at).foldr
    (fun x acc => some (match acc with | none => x | some m => max x m)) none

/-- One request to emit an alert: skipped when the last same-typed alert for
the customer is within the cooldown window, otherwise recorded in
`alert_history`. -/
def sendAlert (hist : List AlertRecord) (cust : String) (ty : AlertType)
    (now : Int) : List AlertRecord :=
  match lastAlertSent hist cust ty with
  | some last => if now - last < ALERT_COOLDOWNS ty then hist else ⟨cust, ty, now⟩ :: hist
  | none => ⟨cust, ty, now⟩ :: hist

/-- Number of stored alerts for one customer and alert type. -/
def countAlerts (hist : List AlertRecord) (cust : String) (ty : AlertType) : Nat :=
  (hist.filter (matchesAlert cust ty)).length

/-- The five adapter-owned field groups of the unification engine. -/
inductive SourceGroup
  | profile
  | revenue
  | activity
  | support
  | scheduling
  deriving Repr, DecidableEq

/-- Profile group (owned by the CRM/support adapters). -/
structure ProfileFields where
  name : Option String
  company_name : Option String
  location_country : Option String
  assigned_am : Option String
  deriving Repr, DecidableEq

/-- Revenue group (owned by the billing adapter). -/
structure RevenueFields where
  mrr : Option ℚ
  arr : Option ℚ
  plan_name : Option String
  subscription_status : Option String
  is_delinquent : Option Bool
  deriving Repr, DecidableEq

/-- Activity group (owned by the product-usage adapter). -/
structure ActivityFields where
  last_seen_at : Option Int
  days_since_seen : Option Nat
  login_count_30d : Option Nat
  deriving Repr, DecidableEq

/-- Support group (owned by the support adapter). -/
structure SupportFields where
  intercom_convos_30d : Option Nat
  csat_score : Option ℚ
  open_tickets : Option Nat
  mentioned_cancel : Option Bool
  deriving Repr, DecidableEq

/-- Scheduling group (owned by the scheduling adapter). -/
structure SchedulingFields where
  total_calls_booked : Option Nat
  calls_completed : Option Nat
  show_rate : Option ℚ
  next_call_date : Option Int
  deriving Repr, DecidableEq

/-- The payload of one adapter's partial customer-fact document: the fields of
the one group that adapter owns. -/
inductive GroupFields
  | profile (d : ProfileFields)
  | revenue (d : RevenueFields)
  | activity (d : ActivityFields)
  | support (d : SupportFields)
  | scheduling (d : SchedulingFields)
  deriving Repr, DecidableEq

/-- The owning group of a fact payload. -/
def GroupFields.group : GroupFields → SourceGroup
  | .profile _ => .profile
  | .revenue _ => .revenue
  | .activity _ => .activity
  | .support _ => .support
  | .scheduling _ => .scheduling

/-- Modelled from the spec: the persisted unified record as the unification
engine writes it — one slot per owned field group, shared metadata
(`updated_at`, one last-sync timestamp per source).  The engine's sync code
(`execution/sync/*.py`) is not in the repository; only the schema and the
directives describing it are. -/
structure MergedCustomer where
  email : String
  profile : ProfileFields
  revenue : RevenueFields
  activity : ActivityFields
  support : SupportFields
  scheduling : SchedulingFields
  updated_at : Int
  last_profile_sync : Option Int
  last_revenue_sync : Option Int
  last_activity_sync : Option Int
  last_support_sync : Option Int
  last_scheduling_sync : Option Int
  deriving Repr, DecidableEq

/-- Modelled from the spec: `merge` upserts one adapter's fact into the
unified record — "a sync from adapter X may only write fields in X's owned
group plus shared metadata", touching `updated_at` and that source's last-sync
timestamp ("Upsert, don't overwrite - Each sync updates only its own
fields").  The sync scripts themselves are not in the repository. -/
def merge (c : MergedCustomer) (f : GroupFields) (t : Int) : MergedCustomer :=
  match f with
  | .profile d =>
    { c with profile := d, updated_at := max c.updated_at t, last_profile_sync := some t }
  | .revenue d =>
    { c with revenue := d, updated_at := max c.updated_at t, last_revenue_sync := some t }
  | .activity d =>
    { c with activity := d, updated_at := max c.updated_at t, last_activity_sync := some t }
  | .support d =>
    { c with support := d, updated_at := max c.updated_at t, last_support_sync := some t }
  | .scheduling d =>
    { c with scheduling := d, updated_at := max c.updated_at t, last_scheduling_sync := some t }

/-- A freshly created unified record: first sighting of an email, all
non-owned groups null. -/
def freshCustomer (email : String) : MergedCustomer :=
  { email := email
    profile := ⟨none, none, none, none⟩
    revenue := ⟨none, none, none, none, none⟩
    activity := ⟨none, none, none⟩
    support := ⟨none, none, none, none⟩
    scheduling := ⟨none, none, none, none⟩
    updated_at := 0
    last_profile_sync := none
    last_revenue_sync := none
    last_activity_sync := none
    last_support_sync := none
    last_scheduling_sync := none }

/-! ## Supporting lemmas -/

theorem churn_multiplier_nonneg (sig : ChurnSignals) : 0 ≤ churn_multiplier sig := by
  unfold churn_multiplier
  split_ifs <;> norm_num

theorem roundTo1_nonneg {x : ℚ} (h : 0 ≤ x) : 0 ≤ roundTo1 x := by
  unfold roundTo1
  have hr : (0 : ℤ) ≤ round (x * 10) := by
    rw [round_eq]
    exact Int.le_floor.mpr (by push_cast; linarith)
  positivity

theorem roundTo1_le_100 {x : ℚ} (h : x ≤ 100) : roundTo1 x ≤ 100 := by
  unfold roundTo1
  have hr : round (x * 10) ≤ 1000 := by
    rw [round_eq]
    have hf : ((⌊x * 10 + 1 / 2⌋ : ℤ) : ℚ) ≤ x * 10 + 1 / 2 := Int.floor_le _
    have : ((⌊x * 10 + 1 / 2⌋ : ℤ) : ℚ) < 1001 := by linarith
    exact_mod_cast Int.lt_add_one_iff.mp (by exact_mod_cast this)
  have : ((round (x * 10) : ℤ) : ℚ) ≤ 1000 := by exact_mod_cast hr
  linarith

theorem health_score_mem_Icc (c : UnifiedCustomer) (now : Int) :
    0 ≤ health_score c now ∧ health_score c now ≤ 100 :=
  ⟨le_max_left 0 _, max_le (by norm_num) (min_le_left 100 _)⟩

theorem churn_risk_mem_Icc {s : ℚ} (_h0 : 0 ≤ s) (h100 : s ≤ 100) (sig : ChurnSignals) :
    0 ≤ calculate_churn_risk s sig ∧ calculate_churn_risk s sig ≤ 100 := by
  unfold calculate_churn_risk
  have hmul := churn_multiplier_nonneg sig
  have hx0 : 0 ≤ min ((100 - s) * churn_multiplier sig) 100 :=
    le_min (mul_nonneg (by linarith) hmul) (by norm_num)
  exact ⟨roundTo1_nonneg hx0, roundTo1_le_100 (min_le_right _ _)⟩

theorem health_score_worstCustomer (now : Int) : health_score worstCustomer now = 0 := by
  simp +decide only [health_score, weighted_score, score_components, risk_penalties,
    worstCustomer, calculate_activity_score, calculate_support_score,
    calculate_payment_score, calculate_engagement_score, calculate_tenure_score,
    calculate_mrr_weight, daysAsCustomer]
  norm_num [min_def, max_def]

theorem health_score_nullCustomer (now : Int) : health_score nullCustomer now = 101 / 2 := by
  norm_num [health_score, weighted_score, score_components, risk_penalties, nullCustomer,
    calculate_activity_score, calculate_support_score, calculate_payment_score,
    calculate_engagement_score, calculate_tenure_score, calculate_mrr_weight,
    daysAsCustomer, min_def, max_def]

/-! ## Claim theorems -/

/-- Claim C1: for every `UnifiedCustomer` input (and any clock value and any
combination of churn signal flags), `health_score` lies in [0,100] and
`calculate_churn_risk` lies in [0,100]; the customer carrying every negative
signal simultaneously clamps at exactly 0, and with all five churn multipliers
stacked on that customer the churn risk is exactly 100, not more. -/
theorem claim_C1_score_and_churn_bounds (c : UnifiedCustomer) (now : Int)
    (sig : ChurnSignals) :
    (0 ≤ health_score c now ∧ health_score c now ≤ 100) ∧
    (0 ≤ calculate_churn_risk (health_score c now) sig ∧
      calculate_churn_risk (health_score c now) sig ≤ 100) ∧
    health_score worstCustomer now = 0 ∧
    calculate_churn_risk (health_score worstCustomer now) allChurnSignals = 100 := by
  obtain ⟨h0, h100⟩ := health_score_mem_Icc c now
  refine ⟨⟨h0, h100⟩, churn_risk_mem_Icc h0 h100 sig, health_score_worstCustomer now, ?_⟩
  rw [health_score_worstCustomer now]
  norm_num [calculate_churn_risk, churn_multiplier, allChurnSignals, roundTo1, min_def,
    round_eq]

/-- Claim C2: for every input, the final health score is the weighted sum of
the six sub-scores with weights 0.25/0.20/0.20/0.15/0.10/0.10, minus the six
risk penalties (cancel mention 30, delinquency 25, inactivity over 30 days 20,
open tickets 5 each capped at 15, defined show rate under 50 with at least 3
bookings 10, MRR over 200 with no upcoming call 10), with the penalties
subtracted after the weighted sum — not inside any sub-score — and the result
clamped to [0,100]. -/
theorem claim_C2_weighted_sum_minus_penalties (c : UnifiedCustomer) (now : Int) :
    health_score c now =
      max 0 (min 100
        ((calculate_activity_score c.days_since_seen * (25 / 100)
          + calculate_support_score c.csat_score c.support_sentiment
              c.intercom_convos_30d * (20 / 100)
          + calculate_payment_score c.subscription_status c.is_delinquent
              c.payment_failures_90d * (20 / 100)
          + calculate_engagement_score c.login_count_30d c.onboarding_complete
              c.feature_adoption_count * (15 / 100)
          + calculate_tenure_score c.signup_date now * (10 / 100)
          + calculate_mrr_weight c.mrr * (10 / 100))
        - ((if c.mentioned_cancel then 30 else 0)
          + (if c.is_delinquent then 25 else 0)
          + (match c.days_since_seen with
             | some d => if d > 30 then 20 else 0
             | none => 0)
          + (if c.open_tickets > 0 then min ((c.open_tickets : ℚ) * 5) 15 else 0)
          + (match c.show_rate with
             | some r => if r < 50 ∧ c.total_calls_booked ≥ 3 then 10 else 0
             | none => 0)
          + (match c.mrr with
             | some m => if m > 200 ∧ c.next_call_date = none then 10 else 0
             | none => 0)))) := rfl

/-- Claim C3: the fully-null customer record does not error: activity, support,
payment, tenure and MRR-weight sub-scores take their neutral defaults 50, 70,
70, 50, 50, the final health score lands in [50,60] (it is 50.5), and the
health status is "at_risk" — not "critical". -/
theorem claim_C3_null_customer_neutral (now : Int) :
    (score_components nullCustomer now).activity_score = 50 ∧
    (score_components nullCustomer now).support_score = 70 ∧
    (score_components nullCustomer now).payment_score = 70 ∧
    (score_components nullCustomer now).tenure_score = 50 ∧
    (score_components nullCustomer now).mrr_weight = 50 ∧
    50 ≤ health_score nullCustomer now ∧ health_score nullCustomer now ≤ 60 ∧
    health_status nullCustomer now = "at_risk" := by
  have h := health_score_nullCustomer now
  refine ⟨?_, ?_, ?_, ?_, ?_, by rw [h]; norm_num, by rw [h]; norm_num, ?_⟩
  · norm_num [score_components, calculate_activity_score, nullCustomer]
  · norm_num [score_components, calculate_support_score, nullCustomer, min_def, max_def]
  · norm_num [score_components, calculate_payment_score, nullCustomer, min_def, max_def]
  · norm_num [score_components, calculate_tenure_score, nullCustomer, daysAsCustomer]
  · norm_num [score_components, calculate_mrr_weight, nullCustomer]
  · rw [health_status, h, classify_health_status]
    norm_num

/-- Claim C4: for the scenario customer with `mentioned_cancel = true`,
`mrr = 500`, `is_delinquent = false`, `days_since_seen = 2` (all other source
fields absent), the risk signals contain the critical "cancel_mention" entry,
the recommended action is the urgent cancel-risk retention message, and the
health score is exactly 30 points below that of the identical customer with
`mentioned_cancel = false` (25.5 against 55.5). -/
theorem claim_C4_cancel_mention_scenario (now : Int) :
    (⟨"cancel_mention", "critical", "Customer mentioned canceling in support"⟩ : RiskSignal)
      ∈ (compute_health (cancelScenario true) now).risk_signals ∧
    (compute_health (cancelScenario true) now).recommended_action
      = "Urgent: Contact immediately - cancel risk" ∧
    (compute_health (cancelScenario true) now).health_score + 30
      = (compute_health (cancelScenario false) now).health_score := by
  have hsig : identify_risk_signals (cancelScenario true) now =
      [⟨"cancel_mention", "critical", "Customer mentioned canceling in support"⟩] := by
    norm_num [identify_risk_signals, cancelScenario, nullCustomer, daysAsCustomer]
  have htrue : health_score (cancelScenario true) now = 51 / 2 := by
    norm_num [health_score, weighted_score, score_components, risk_penalties,
      cancelScenario, nullCustomer, calculate_activity_score, calculate_support_score,
      calculate_payment_score, calculate_engagement_score, calculate_tenure_score,
      calculate_mrr_weight, daysAsCustomer, min_def, max_def]
  have hfalse : health_score (cancelScenario false) now = 111 / 2 := by
    norm_num [health_score, weighted_score, score_components, risk_penalties,
      cancelScenario, nullCustomer, calculate_activity_score, calculate_support_score,
      calculate_payment_score, calculate_engagement_score, calculate_tenure_score,
      calculate_mrr_weight, daysAsCustomer, min_def, max_def]
  refine ⟨?_, ?_, ?_⟩
  · simp [compute_health, hsig]
  · simp only [compute_health, hsig, htrue]
    norm_num [recommend_action, health_status, classify_health_status]
  · simp only [compute_health, htrue, hfalse]
    norm_num

/-- Claim C5: with `subscription_status = "canceled"` the payment sub-score is
0 (for any delinquency flag and failure count), with at least 90 days since
last activity the activity sub-score is 0, and the scenario customer carrying
exactly those two facts (all other source fields absent) scores 4 and is
classified "critical". -/
theorem claim_C5_canceled_inactive_scenario (d : Nat) (delinquent : Bool)
    (failures : Nat) (now : Int) (hd : 90 ≤ d) :
    calculate_payment_score (some "canceled") delinquent failures = 0 ∧
    calculate_activity_score (some d) = 0 ∧
    health_score (canceledScenario d) now < 30 ∧
    health_status (canceledScenario d) now = "critical" := by
  have hpay : calculate_payment_score (some "canceled") delinquent failures = 0 := by
    cases delinquent <;> simp +decide [calculate_payment_score]
  have hact : calculate_activity_score (some d) = 0 := by
    simp only [calculate_activity_score]
    split_ifs <;> first | rfl | (exfalso; omega)
  have hscore : health_score (canceledScenario d) now = 4 := by
    simp +decide only [health_score, weighted_score, score_components, risk_penalties,
      canceledScenario, nullCustomer, calculate_support_score, calculate_payment_score,
      calculate_engagement_score, calculate_tenure_score, calculate_mrr_weight,
      daysAsCustomer, hact]
    rw [if_pos (by omega : d > 30)]
    norm_num [min_def, max_def]
  refine ⟨hpay, hact, by rw [hscore]; norm_num, ?_⟩
  rw [health_status, hscore, classify_health_status]
  norm_num

/-- Claim C5 witness: the scenario at 90 days, delinquent flag set, no recorded
failures. -/
theorem claim_C5_witness :
    calculate_payment_score (some "canceled") true 0 = 0 ∧
    calculate_activity_score (some 90) = 0 ∧
    health_score (canceledScenario 90) 0 < 30 ∧
    health_status (canceledScenario 90) 0 = "critical" :=
  claim_C5_canceled_inactive_scenario 90 true 0 0 (by norm_num)

/-- Claim C6 exhibit: a customer whose defined show rate is exactly 0 (three
calls booked, none attended).  The truthiness guard in
`identify_risk_signals` (`if customer_data.show_rate and ...`) skips the zero
value, so no "low_show_rate" entry — nor any other signal — is produced, even
though the same file's penalty logic (`if show_rate < 50 and
total_calls_booked >= 3`) does charge the 10-point low-show-rate penalty for
this customer. -/
theorem claim_C6_zero_show_rate_divergence (now : Int) :
    zeroShowRateCustomer.show_rate = some 0 ∧ (0 : ℚ) < 50 ∧
    identify_risk_signals zeroShowRateCustomer now = [] ∧
    risk_penalties zeroShowRateCustomer = 10 := by
  refine ⟨rfl, by norm_num, ?_, ?_⟩
  · norm_num [identify_risk_signals, zeroShowRateCustomer, nullCustomer, daysAsCustomer]
  · norm_num [risk_penalties, zeroShowRateCustomer, nullCustomer]

/-- Claim C7: a merge from one adapter changes only that adapter's owned group
and the shared metadata (`updated_at` and that source's last-sync timestamp):
the email and every group and last-sync slot owned by a different adapter are
untouched, and consequently two merges from adapters owning different groups
commute. -/
theorem claim_C7_merge_frame_and_commute (c : MergedCustomer) (f g : GroupFields)
    (t u : Int) (h : f.group ≠ g.group) :
    (f.group ≠ .profile →
      (merge c f t).profile = c.profile ∧
      (merge c f t).last_profile_sync = c.last_profile_sync) ∧
    (f.group ≠ .revenue →
      (merge c f t).revenue = c.revenue ∧
      (merge c f t).last_revenue_sync = c.last_revenue_sync) ∧
    (f.group ≠ .activity →
      (merge c f t).activity = c.activity ∧
      (merge c f t).last_activity_sync = c.last_activity_sync) ∧
    (f.group ≠ .support →
      (merge c f t).support = c.support ∧
      (merge c f t).last_support_sync = c.last_support_sync) ∧
    (f.group ≠ .scheduling →
      (merge c f t).scheduling = c.scheduling ∧
      (merge c f t).last_scheduling_sync = c.last_scheduling_sync) ∧
    (merge c f t).email = c.email ∧
    merge (merge c f t) g u = merge (merge c g u) f t := by
  cases f <;> cases g <;> simp_all [merge, GroupFields.group] <;> omega

/-- Claim C7 witness: a profile merge and a revenue merge on a fresh record
commute. -/
theorem claim_C7_witness :
    merge (merge (freshCustomer "a@b.co") (.profile ⟨some "Ana", none, none, none⟩) 1)
        (.revenue ⟨some 100, none, none, some "active", some false⟩) 2
      = merge (merge (freshCustomer "a@b.co")
          (.revenue ⟨some 100, none, none, some "active", some false⟩) 2)
        (.profile ⟨some "Ana", none, none, none⟩) 1 :=
  (claim_C7_merge_frame_and_commute (freshCustomer "a@b.co")
    (.profile ⟨some "Ana", none, none, none⟩)
    (.revenue ⟨some 100, none, none, some "active", some false⟩) 1 2
    (by decide)).2.2.2.2.2.2

/-- Claim C8: the cooldowns are 7 days for cancel-mention, 3 for delinquency,
2 for a health-score drop and 14 for an engagement drop, and two requests to
emit the same (customer, alert type) alert within that type's cooldown window,
starting from a history holding no such alert, leave exactly one matching
`AlertRecord`: the second request is suppressed. -/
theorem claim_C8_cooldown_dedup (hist : List AlertRecord) (cust : String)
    (ty : AlertType) (t1 t2 : Int) (h0 : countAlerts hist cust ty = 0)
    (_horder : t1 ≤ t2) (hwin : t2 - t1 < ALERT_COOLDOWNS ty) :
    countAlerts (sendAlert (sendAlert hist cust ty t1) cust ty t2) cust ty = 1 ∧
    ALERT_COOLDOWNS .cancel_mention = 7 * 24 * 3600 ∧
    ALERT_COOLDOWNS .payment_delinquent = 3 * 24 * 3600 ∧
    ALERT_COOLDOWNS .health_drop = 2 * 24 * 3600 ∧
    ALERT_COOLDOWNS .engagement_drop = 14 * 24 * 3600 := by
  have hfil : hist.filter (matchesAlert cust ty) = [] :=
    List.length_eq_zero.mp h0
  have hnone : lastAlertSent hist cust ty = none := by
    simp [lastAlertSent, hfil]
  have hsend1 : sendAlert hist cust ty t1 = ⟨cust, ty, t1⟩ :: hist := by
    simp [sendAlert, hnone]
  have hmatch : matchesAlert cust ty ⟨cust, ty, t1⟩ = true := by
    simp [matchesAlert]
  have hlast1 : lastAlertSent (⟨cust, ty, t1⟩ :: hist) cust ty = some t1 := by
    simp [lastAlertSent, List.filter_cons, hmatch, hfil]
  have hsend2 : sendAlert (⟨cust, ty, t1⟩ :: hist) cust ty t2 = ⟨cust, ty, t1⟩ :: hist := by
    simp [sendAlert, hlast1, if_pos hwin]
  refine ⟨?_, rfl, rfl, rfl, rfl⟩
  rw [hsend1, hsend2]
  simp [countAlerts, List.filter_cons, hmatch, hfil]

/-- Claim C8 witness: two cancel-mention requests for the same customer one
hour apart, against an empty alert history, record exactly one alert. -/
theorem claim_C8_witness :
    countAlerts (sendAlert (sendAlert [] "cust-1" .cancel_mention 0) "cust-1"
      .cancel_mention 3600) "cust-1" .cancel_mention = 1 ∧
    ALERT_COOLDOWNS .cancel_mention = 7 * 24 * 3600 ∧
    ALERT_COOLDOWNS .payment_delinquent = 3 * 24 * 3600 ∧
    ALERT_COOLDOWNS .health_drop = 2 * 24 * 3600 ∧
    ALERT_COOLDOWNS .engagement_drop = 14 * 24 * 3600 :=
  claim_C8_cooldown_dedup [] "cust-1" .cancel_mention 0 3600 rfl (by norm_num)
    (by norm_num [ALERT_COOLDOWNS])

/-- Claim C9 counterexample: the scoring engine is not a function of the
customer record alone — the customer whose only populated field is a signup
date yields different outputs when scored 10 days versus 400 days after
signup (tenure score 40 against 100, hence different health scores). -/
theorem claim_C9_counterexample :
    compute_health tenureProbe 864000 ≠ compute_health tenureProbe 34560000 := by
  have h1 : health_score tenureProbe 864000 = 99 / 2 := by
    norm_num [health_score, weighted_score, score_components, risk_penalties, tenureProbe,
      nullCustomer, calculate_activity_score, calculate_support_score,
      calculate_payment_score, calculate_engagement_score, calculate_tenure_score,
      calculate_mrr_weight, daysAsCustomer, min_def, max_def]
  have h2 : health_score tenureProbe 34560000 = 111 / 2 := by
    norm_num [health_score, weighted_score, score_components, risk_penalties, tenureProbe,
      nullCustomer, calculate_activity_score, calculate_support_score,
      calculate_payment_score, calculate_engagement_score, calculate_tenure_score,
      calculate_mrr_weight, daysAsCustomer, min_def, max_def]
  intro h
  have := congrArg HealthOutput.health_score h
  simp only [compute_health] at this
  rw [h1, h2] at this
  norm_num at this

/-- Claim C9 amended: the scoring engine is a deterministic function of the
pair (customer record, clock): its only dependence on anything outside the
record is the `days_as_customer` quantity derived from the clock and the
signup date, so any two runs that agree on it — in particular any two runs at
the same instant — produce identical outputs. -/
theorem claim_C9_time_determinism (c : UnifiedCustomer) (t1 t2 : Int)
    (h : daysAsCustomer c.signup_date t1 = daysAsCustomer c.signup_date t2) :
    compute_health c t1 = compute_health c t2 := by
  simp only [compute_health, health_score, weighted_score, score_components,
    health_status, identify_risk_signals, calculate_tenure_score]
  rw [h]

/-- Claim C9 witness: a record with no signup date scores identically at two
different instants. -/
theorem claim_C9_witness :
    compute_health nullCustomer 0 = compute_health nullCustomer 86400 :=
  claim_C9_time_determinism nullCustomer 0 86400 rfl

/-- Claim C10: the show-rate aggregation never divides by zero — with zero
booked calls the show rate is NULL, and only with a positive booked count is
it `(calls_completed / total_calls_booked) * 100`. -/
theorem claim_C10_show_rate_no_div_by_zero (completed booked : Nat) :
    (booked = 0 → showRate completed booked = none) ∧
    (0 < booked →
      showRate completed booked = some (((completed : ℚ) / (booked : ℚ)) * 100)) := by
  constructor
  · intro h
    simp [showRate, h]
  · intro h
    rw [showRate, if_neg (by omega)]

/-- Claim C10 witness: no bookings gives an absent show rate; 3 completed of 4
booked gives 75. -/
theorem claim_C10_witness :
    showRate 3 0 = none ∧ showRate 3 4 = some 75 :=
  ⟨(claim_C10_show_rate_no_div_by_zero 3 0).1 rfl, by
    rw [(claim_C10_show_rate_no_div_by_zero 3 4).2 (by norm_num)]
    norm_num⟩

end ListKit

